import Mathlib

/-!
Verification of the financial decision engine of WealthTimeMachine
(`src/backend/financial_model.py`, class `FinancialDecisionModel`).

Shallow embedding conventions:
* Python floats are modelled by exact rationals (`ℚ`).  All concrete values
  appearing in the theorems below were checked to be far from binary-float
  rounding boundaries (the one near-tie, `|−0.05 + 1.645·0.03|·100 = 0.065`,
  was traced through IEEE-754 double arithmetic by hand: the computed double
  is strictly above 0.065, so Python's `round` also yields 0.07).
* Python `round(x, 2)` / `round(x, 3)` are modelled by `round2` / `round3`
  below, using Mathlib's `round` (round-half-up on `ℚ`).  Python uses
  round-half-even on doubles; the two agree away from exact half-way points,
  which is the case at every concrete input used here.
* The `while` loop of `calculate_optimal_savings_rate` is embedded with an
  explicit fuel argument (`loopAux`); fuel 600 is exactly the Python bound
  `months < 600`, and `loopAux_fuel_ge_600` shows larger fuel never changes
  the result, i.e. the Python loop terminates within 600 iterations.
* The Gaussian draw inside `monte_carlo_simulation` is abstracted as an
  arbitrary stream of monthly returns (one stream per simulated trial); the
  distribution parameters are kept in the signature but the embedding is
  quantified over every possible stream.
-/

/-- Python `round(x, 2)` modelled on `ℚ` (see header for the tie convention). -/
def round2 (x : ℚ) : ℚ := (round (x * 100) : ℚ) / 100

/-- Python `round(x, 3)` modelled on `ℚ`. -/
def round3 (x : ℚ) : ℚ := (round (x * 1000) : ℚ) / 1000

lemma abs_round2_sub_le (x : ℚ) : |round2 x - x| ≤ 1 / 200 := by
  have h : |x * 100 - round (x * 100)| ≤ 1 / 2 := abs_sub_round (x * 100)
  have h2 : round2 x - x = ((round (x * 100) : ℚ) - x * 100) / 100 := by
    unfold round2; ring
  rw [h2, abs_div, abs_sub_comm]
  rw [show |(100:ℚ)| = 100 from by norm_num]
  linarith

lemma abs_round3_sub_le (x : ℚ) : |round3 x - x| ≤ 1 / 2000 := by
  have h : |x * 1000 - round (x * 1000)| ≤ 1 / 2 := abs_sub_round (x * 1000)
  have h2 : round3 x - x = ((round (x * 1000) : ℚ) - x * 1000) / 1000 := by
    unfold round3; ring
  rw [h2, abs_div, abs_sub_comm]
  rw [show |(1000:ℚ)| = 1000 from by norm_num]
  linarith

lemma round_le_round {x y : ℚ} (h : x ≤ y) : round x ≤ round y := by
  rw [round_eq, round_eq]
  exact Int.floor_le_floor (by linarith)

/-- The three risk tiers of `self.risk_profiles`. -/
inductive RiskLevel
  | low
  | medium
  | high
deriving DecidableEq

/-- `risk_profiles[tier]["expected_return"]`. -/
def expected_return : RiskLevel → ℚ
  | .low => 0.05
  | .medium => 0.07
  | .high => 0.09

/-- `risk_profiles[tier]["volatility"]`. -/
def volatility : RiskLevel → ℚ
  | .low => 0.03
  | .medium => 0.08
  | .high => 0.15

/-- `risk_profiles[tier]["asset_allocation"]["stocks"]`. -/
def alloc_stocks : RiskLevel → ℚ
  | .low => 0.20
  | .medium => 0.40
  | .high => 0.60

/-- `risk_profiles[tier]["asset_allocation"]["bonds"]`. -/
def alloc_bonds : RiskLevel → ℚ
  | .low => 0.70
  | .medium => 0.50
  | .high => 0.30

/-- `risk_profiles[tier]["asset_allocation"]["cash"]`. -/
def alloc_cash : RiskLevel → ℚ
  | .low => 0.10
  | .medium => 0.10
  | .high => 0.10

/-- `FinancialDecisionModel.calculate_sharpe_ratio` (lines 436-457). -/
def calculate_sharpe_ratio (rl : RiskLevel) : ℚ :=
  let risk_free_rate : ℚ := 0.03
  let excess_return := expected_return rl - risk_free_rate
  let sharpe := if volatility rl > 0 then excess_return / volatility rl else 0
  round2 sharpe

/-- `FinancialDecisionModel.calculate_var` (lines 459-476). -/
def calculate_var (rl : RiskLevel) (confidence_level : ℚ) : ℚ :=
  let z_score : ℚ :=
    if confidence_level = 0.95 then 1.645
    else if confidence_level = 0.99 then 2.326
    else 1.28
  let var := -expected_return rl + z_score * volatility rl
  round2 (|var| * 100)

/-- `FinancialDecisionModel.calculate_cvar` (lines 502-517): re-rounds
`calculate_var`'s already-rounded result after multiplying by 1.3. -/
def calculate_cvar (rl : RiskLevel) (confidence_level : ℚ) : ℚ :=
  let var := calculate_var rl confidence_level / 100
  let cvar := var * 1.3
  round2 (cvar * 100)

/-- C4 counterexample: for the medium tier at 95% confidence the code returns
`var95 = 6.16` and `cvar95 = 8.01`, but `1.3 × 6.16 = 8.008 ≠ 8.01`: the final
two-decimal rounding breaks exactness. -/
theorem cvar_not_exact_multiple_counterexample :
    calculate_var .medium 0.95 = 6.16 ∧
    calculate_cvar .medium 0.95 = 8.01 ∧
    calculate_cvar .medium 0.95 ≠ 1.3 * calculate_var .medium 0.95 := by
  have hvar : calculate_var .medium 0.95 = 6.16 := by
    unfold calculate_var
    norm_num [expected_return, volatility]
    rw [abs_of_nonneg (by norm_num)]
    norm_num [round2, round_eq]
  have hcvar : calculate_cvar .medium 0.95 = 8.01 := by
    unfold calculate_cvar
    rw [hvar]
    norm_num [round2, round_eq]
  refine ⟨hvar, hcvar, ?_⟩
  rw [hvar, hcvar]
  norm_num

/-- C4 (amended): for every tier and confidence level,
`cvar = round(1.3 · var, 2)` — equal to `1.3 · var` only up to the final
two-decimal rounding (within 0.005), not exactly. -/
theorem cvar_eq_round2_of_var (rl : RiskLevel) (confidence_level : ℚ) :
    calculate_cvar rl confidence_level
      = round2 (1.3 * calculate_var rl confidence_level) ∧
    |calculate_cvar rl confidence_level
      - 1.3 * calculate_var rl confidence_level| ≤ 1 / 200 := by
  have heq : calculate_cvar rl confidence_level
      = round2 (1.3 * calculate_var rl confidence_level) := by
    unfold calculate_cvar
    ring_nf
  refine ⟨heq, ?_⟩
  rw [heq]
  exact abs_round2_sub_le _

/-- C7 counterexample: for the low tier the code's `var95` is 0.07, nowhere
near the spec's claimed ≈4.94 (the spec misevaluated its own formula:
`|−0.05 + 1.645·0.03| = 0.00065`, so `·100` gives 0.065, not 4.94). -/
theorem var95_low_counterexample :
    calculate_var .low 0.95 = 0.07 ∧ ¬(|(0.07 : ℚ) - 4.94| ≤ 0.01) := by
  constructor
  · unfold calculate_var
    norm_num [expected_return, volatility]
    rw [abs_of_nonneg (by norm_num)]
    norm_num [round2, round_eq]
  · rw [abs_of_nonpos (by norm_num)]
    norm_num

/-- C7 (amended): for the low tier, `sharpeRatio = round((0.05−0.03)/0.03, 2)
= 0.67` as claimed, while `var95 = round(|−0.05+1.645·0.03|·100, 2) =
round(0.065, 2) = 0.07` — the formula is as claimed but its value is 0.07,
not ≈4.94. -/
theorem low_tier_metrics :
    calculate_sharpe_ratio .low = 0.67 ∧
    calculate_var .low 0.95 = 0.07 ∧
    |(-0.05 + 1.645 * 0.03 : ℚ)| * 100 = 0.065 := by
  refine ⟨?_, ?_, ?_⟩
  · unfold calculate_sharpe_ratio
    norm_num [expected_return, volatility, round2, round_eq]
  · unfold calculate_var
    norm_num [expected_return, volatility]
    rw [abs_of_nonneg (by norm_num)]
    norm_num [round2, round_eq]
  · rw [show (-0.05 + 1.645 * 0.03 : ℚ) = -(13/20000) from by norm_num,
      abs_neg, abs_of_nonneg (by norm_num)]
    norm_num

/-- An `AllocationResult` as returned by `optimize_asset_allocation`. -/
structure Allocation where
  stocks : ℚ
  bonds : ℚ
  cash : ℚ
deriving DecidableEq

/-- `time_factor = min(1.0, time_horizon / 120)` (line 598). -/
def time_factor (time_horizon : ℕ) : ℚ := min 1 ((time_horizon : ℚ) / 120)

/-- `asset_ratio = min(1.0, current_asset / target_amount) if target_amount > 0
else 0` (line 601). -/
def asset_ratio (current_asset target_amount : ℚ) : ℚ :=
  if target_amount > 0 then min 1 (current_asset / target_amount) else 0

/-- `conservative_factor = asset_ratio * 0.3` (line 602). -/
def conservative_factor (current_asset target_amount : ℚ) : ℚ :=
  asset_ratio current_asset target_amount * 0.3

/-- `stocks_adj` (line 605). -/
def stocks_adj (rl : RiskLevel) (current_asset target_amount : ℚ)
    (time_horizon : ℕ) : ℚ :=
  alloc_stocks rl * (1 + time_factor time_horizon * 0.2)
    * (1 - conservative_factor current_asset target_amount)

/-- `bonds_adj` (line 606). -/
def bonds_adj (rl : RiskLevel) (current_asset target_amount : ℚ)
    (time_horizon : ℕ) : ℚ :=
  alloc_bonds rl * (1 - time_factor time_horizon * 0.1)
    * (1 + conservative_factor current_asset target_amount)

/-- `cash_adj = base_allocation["cash"]` (line 607). -/
def cash_adj (rl : RiskLevel) : ℚ := alloc_cash rl

/-- The normalization divisor `total = stocks_adj + bonds_adj + cash_adj`
(line 610). -/
def allocation_total (rl : RiskLevel) (current_asset target_amount : ℚ)
    (time_horizon : ℕ) : ℚ :=
  stocks_adj rl current_asset target_amount time_horizon
    + bonds_adj rl current_asset target_amount time_horizon
    + cash_adj rl

/-- `FinancialDecisionModel.optimize_asset_allocation` (lines 577-615). -/
def optimize_asset_allocation (rl : RiskLevel) (current_asset target_amount : ℚ)
    (time_horizon : ℕ) : Allocation :=
  let total := allocation_total rl current_asset target_amount time_horizon
  { stocks := round3 (stocks_adj rl current_asset target_amount time_horizon / total)
    bonds := round3 (bonds_adj rl current_asset target_amount time_horizon / total)
    cash := round3 (cash_adj rl / total) }

lemma time_factor_nonneg (th : ℕ) : 0 ≤ time_factor th :=
  le_min (by norm_num) (by positivity)

lemma time_factor_le_one (th : ℕ) : time_factor th ≤ 1 := min_le_left _ _

lemma asset_ratio_nonneg {ca : ℚ} (ta : ℚ) (hca : 0 ≤ ca) :
    0 ≤ asset_ratio ca ta := by
  unfold asset_ratio
  split
  · exact le_min (by norm_num) (div_nonneg hca (by linarith))
  · exact le_refl 0

lemma asset_ratio_le_one (ca ta : ℚ) : asset_ratio ca ta ≤ 1 := by
  unfold asset_ratio
  split
  · exact min_le_left _ _
  · norm_num

lemma alloc_stocks_nonneg (rl : RiskLevel) : 0 ≤ alloc_stocks rl := by
  cases rl <;> norm_num [alloc_stocks]

lemma alloc_bonds_nonneg (rl : RiskLevel) : 0 ≤ alloc_bonds rl := by
  cases rl <;> norm_num [alloc_bonds]

lemma alloc_cash_pos (rl : RiskLevel) : 0 < alloc_cash rl := by
  cases rl <;> norm_num [alloc_cash]

/-- The normalization divisor is strictly positive: every adjusted weight is
nonnegative and the cash component keeps its positive base weight. -/
lemma allocation_total_pos (rl : RiskLevel) {ca : ℚ} (ta : ℚ) (th : ℕ)
    (hca : 0 ≤ ca) : 0 < allocation_total rl ca ta th := by
  have htf0 := time_factor_nonneg th
  have htf1 := time_factor_le_one th
  have har0 := asset_ratio_nonneg ta hca
  have har1 := asset_ratio_le_one ca ta
  have hcf0 : 0 ≤ conservative_factor ca ta := by
    unfold conservative_factor; positivity
  have hcf1 : conservative_factor ca ta ≤ 0.3 := by
    unfold conservative_factor
    nlinarith
  have hs : 0 ≤ stocks_adj rl ca ta th := by
    unfold stocks_adj
    have h1 : (0:ℚ) ≤ 1 + time_factor th * 0.2 := by nlinarith
    have h2 : (0:ℚ) ≤ 1 - conservative_factor ca ta := by linarith
    exact mul_nonneg (mul_nonneg (alloc_stocks_nonneg rl) h1) h2
  have hb : 0 ≤ bonds_adj rl ca ta th := by
    unfold bonds_adj
    have h1 : (0:ℚ) ≤ 1 - time_factor th * 0.1 := by nlinarith
    have h2 : (0:ℚ) ≤ 1 + conservative_factor ca ta := by linarith
    exact mul_nonneg (mul_nonneg (alloc_bonds_nonneg rl) h1) h2
  have hc : 0 < cash_adj rl := alloc_cash_pos rl
  unfold allocation_total
  linarith

/-- C9: for every tier, every `horizonMonths ≥ 0` (a natural number here) and
every `currentAsset ≥ 0`, the normalization divisor
`stocks_adj + bonds_adj + cash_adj` of `optimize_asset_allocation` is strictly
positive, so the final normalization never divides by zero. -/
theorem normalization_divisor_pos (rl : RiskLevel) (time_horizon : ℕ)
    (current_asset target_amount : ℚ) (hca : 0 ≤ current_asset) :
    0 < allocation_total rl current_asset target_amount time_horizon :=
  allocation_total_pos rl target_amount time_horizon hca

/-- C9 witness at a concrete input. -/
theorem normalization_divisor_pos_witness :
    0 ≤ (0 : ℚ) ∧ 0 < allocation_total .low 0 1000000 0 :=
  ⟨le_refl 0, normalization_divisor_pos .low 0 0 1000000 (le_refl 0)⟩

/-- C1 counterexample: for the high tier with `horizonMonths = 60`,
`currentAsset = 0`, `targetAmount = 1000000`, the returned weights are
0.632, 0.273 and 0.096, whose sum 1.001 is not within 1e-6 of 1.0 (the
three-decimal rounding of each weight breaks the claimed tolerance). -/
theorem allocation_sum_counterexample :
    optimize_asset_allocation .high 0 1000000 60
      = ⟨0.632, 0.273, 0.096⟩ ∧
    ¬(|(0.632 + 0.273 + 0.096 : ℚ) - 1| ≤ 1 / 1000000) := by
  constructor
  · unfold optimize_asset_allocation allocation_total stocks_adj bonds_adj
      cash_adj conservative_factor asset_ratio time_factor
    norm_num [alloc_stocks, alloc_bonds, alloc_cash, round3, round_eq]
  · rw [show (0.632 + 0.273 + 0.096 : ℚ) - 1 = 1/1000 from by norm_num,
      abs_of_nonneg (by norm_num)]
    norm_num

/-- C1 (amended): for every tier, horizon in [0, 600], `currentAsset ≥ 0` and
every `targetAmount`, the pre-rounding normalized weights sum to exactly 1,
and the returned three-decimal-rounded weights sum to 1 within 1.5e-3 (the
worst case of three half-unit roundings) — not within 1e-6 in general. -/
theorem allocation_sum_near_one (rl : RiskLevel) (time_horizon : ℕ)
    (current_asset target_amount : ℚ) (hth : time_horizon ≤ 600)
    (hca : 0 ≤ current_asset) :
    stocks_adj rl current_asset target_amount time_horizon
        / allocation_total rl current_asset target_amount time_horizon
      + bonds_adj rl current_asset target_amount time_horizon
        / allocation_total rl current_asset target_amount time_horizon
      + cash_adj rl
        / allocation_total rl current_asset target_amount time_horizon = 1 ∧
    |(optimize_asset_allocation rl current_asset target_amount time_horizon).stocks
      + (optimize_asset_allocation rl current_asset target_amount time_horizon).bonds
      + (optimize_asset_allocation rl current_asset target_amount time_horizon).cash
      - 1| ≤ 3 / 2000 := by
  have ht := allocation_total_pos rl target_amount time_horizon hca
  set t := allocation_total rl current_asset target_amount time_horizon with hts
  set s := stocks_adj rl current_asset target_amount time_horizon with hss
  set b := bonds_adj rl current_asset target_amount time_horizon with hbs
  set c := cash_adj rl with hcs
  have hsum : s / t + b / t + c / t = 1 := by
    rw [div_add_div_same, div_add_div_same]
    rw [show s + b + c = t from by rw [hts, hss, hbs, hcs]; rfl]
    exact div_self (ne_of_gt ht)
  refine ⟨hsum, ?_⟩
  have hopt : optimize_asset_allocation rl current_asset target_amount time_horizon
      = ⟨round3 (s / t), round3 (b / t), round3 (c / t)⟩ := rfl
  rw [hopt]
  have h1 := abs_round3_sub_le (s / t)
  have h2 := abs_round3_sub_le (b / t)
  have h3 := abs_round3_sub_le (c / t)
  have hrw : round3 (s / t) + round3 (b / t) + round3 (c / t) - 1
      = (round3 (s / t) - s / t) + (round3 (b / t) - b / t)
        + (round3 (c / t) - c / t) := by
    rw [← hsum]; ring
  show |round3 (s / t) + round3 (b / t) + round3 (c / t) - 1| ≤ 3 / 2000
  rw [hrw]
  calc |(round3 (s / t) - s / t) + (round3 (b / t) - b / t)
        + (round3 (c / t) - c / t)|
      ≤ |(round3 (s / t) - s / t) + (round3 (b / t) - b / t)|
        + |round3 (c / t) - c / t| := abs_add _ _
    _ ≤ |round3 (s / t) - s / t| + |round3 (b / t) - b / t|
        + |round3 (c / t) - c / t| := by linarith [abs_add (round3 (s / t) - s / t) (round3 (b / t) - b / t)]
    _ ≤ 3 / 2000 := by linarith

/-- C1 witness at a concrete input. -/
theorem allocation_sum_near_one_witness :
    (60 : ℕ) ≤ 600 ∧ 0 ≤ (0 : ℚ) ∧
    (stocks_adj .high 0 1000000 60 / allocation_total .high 0 1000000 60
      + bonds_adj .high 0 1000000 60 / allocation_total .high 0 1000000 60
      + cash_adj .high / allocation_total .high 0 1000000 60 = 1 ∧
    |(optimize_asset_allocation .high 0 1000000 60).stocks
      + (optimize_asset_allocation .high 0 1000000 60).bonds
      + (optimize_asset_allocation .high 0 1000000 60).cash
      - 1| ≤ 3 / 2000) :=
  ⟨by norm_num, le_refl 0,
    allocation_sum_near_one .high 60 0 1000000 (by norm_num) (le_refl 0)⟩

/-- Python's substring test `needle in haystack` on strings, as used by
`calculate_target_amount` (an empty needle is contained in everything,
matching Python). -/
def hasSub (needle : List Char) : List Char → Bool
  | [] => needle.isEmpty
  | c :: rest => needle.isPrefixOf (c :: rest) || hasSub needle rest

/-- `FinancialDecisionModel.calculate_target_amount` (lines 164-183).  The
keyword tests run on the original `goal` text (the lowercased copy computed
by the Python code is never used in the conditions). -/
def calculate_target_amount (goal : String) : ℚ :=
  if hasSub "买房".toList goal.toList || hasSub "房".toList goal.toList then
    1000000
  else if hasSub "买车".toList goal.toList || hasSub "车".toList goal.toList then
    300000
  else if hasSub "教育".toList goal.toList then
    500000
  else if hasSub "自由".toList goal.toList || hasSub "退休".toList goal.toList then
    2000000
  else
    500000

/-- The `asset_coverage` factor of `calculate_risk_tolerance` (lines 209-211):
`min(2.0, current_asset / target_amount)` when the target is positive, else 0,
then clamped to be nonnegative. -/
def asset_coverage (current_asset target_amount : ℚ) : ℚ :=
  max 0 (if target_amount > 0 then min 2 (current_asset / target_amount) else 0)

/-- C2 counterexample: the code keys on Chinese keywords, so the literal goal
text "buy a house" matches no bucket and yields the generic 500000 (not
1000000), and with `currentAsset = 50000` the asset-coverage factor is 0.1
(not 0.05). -/
theorem buy_a_house_counterexample :
    calculate_target_amount "buy a house" = 500000 ∧
    (500000 : ℚ) ≠ 1000000 ∧
    asset_coverage 50000 (calculate_target_amount "buy a house") = 0.1 ∧
    (0.1 : ℚ) ≠ 0.05 := by
  have h : calculate_target_amount "buy a house" = 500000 := by decide
  refine ⟨h, by norm_num, ?_, by norm_num⟩
  rw [h]
  unfold asset_coverage
  norm_num

/-- C2 (amended): for the house-buying goal the code actually recognises —
any text containing the keyword "买房" (buy a house), e.g. the goal "买房" —
`calculate_target_amount` returns 1000000, and with `currentAsset = 50000`
the asset-coverage factor of `calculate_risk_tolerance` is 0.05. -/
theorem house_goal_target_and_coverage :
    calculate_target_amount "买房" = 1000000 ∧
    asset_coverage 50000 (calculate_target_amount "买房") = 0.05 := by
  have h : calculate_target_amount "买房" = 1000000 := by decide
  refine ⟨h, ?_⟩
  rw [h]
  unfold asset_coverage
  norm_num

/-- C3 counterexample: the house bucket (1000000) is strictly smaller than the
freedom/retirement bucket (2000000), and the car bucket (300000) is strictly
smaller than the generic bucket (500000), so the claimed descending order
house > freedom > education > car > generic fails. -/
theorem bucket_order_counterexample :
    calculate_target_amount "买房" = 1000000 ∧
    calculate_target_amount "自由" = 2000000 ∧
    calculate_target_amount "买车" = 300000 ∧
    calculate_target_amount "x" = 500000 ∧
    ¬((1000000 : ℚ) > 2000000) ∧ ¬((300000 : ℚ) > 500000) := by
  refine ⟨by decide, by decide, by decide, by decide, by norm_num, by norm_num⟩

/-- C3 (amended): the five fixed bucket amounts are in descending magnitude
freedom (2000000) > house (1000000) > education (500000) = generic (500000)
> car (300000), and any goal text matching no bucket keyword returns the
generic amount 500000. -/
theorem bucket_amounts_and_generic_fallback :
    calculate_target_amount "自由" = 2000000 ∧
    calculate_target_amount "买房" = 1000000 ∧
    calculate_target_amount "教育" = 500000 ∧
    calculate_target_amount "买车" = 300000 ∧
    (2000000 : ℚ) > 1000000 ∧ (1000000 : ℚ) > 500000 ∧ (500000 : ℚ) > 300000 ∧
    ∀ goal : String,
      hasSub "买房".toList goal.toList = false →
      hasSub "房".toList goal.toList = false →
      hasSub "买车".toList goal.toList = false →
      hasSub "车".toList goal.toList = false →
      hasSub "教育".toList goal.toList = false →
      hasSub "自由".toList goal.toList = false →
      hasSub "退休".toList goal.toList = false →
      calculate_target_amount goal = 500000 := by
  refine ⟨by decide, by decide, by decide, by decide, by norm_num, by norm_num,
    by norm_num, ?_⟩
  intro goal h1 h2 h3 h4 h5 h6 h7
  unfold calculate_target_amount
  rw [h1, h2, h3, h4, h5, h6, h7]
  norm_num

/-- C3 witness: a concrete unmatched goal falling through to the generic
bucket. -/
theorem generic_fallback_witness :
    hasSub "买房".toList "hello".toList = false ∧
    calculate_target_amount "hello" = 500000 :=
  ⟨by decide,
    bucket_amounts_and_generic_fallback.2.2.2.2.2.2.2 "hello" (by decide)
      (by decide) (by decide) (by decide) (by decide) (by decide) (by decide)⟩

/-- The `time_pressure` factor of `calculate_risk_tolerance` (lines 213-231),
including the dead `months_to_target <= 0` branch and the 999 sentinel used
when the monthly saving capacity `monthly_income * 0.3` is not positive. -/
def time_pressure (current_asset monthly_income target_amount : ℚ) : ℚ :=
  let gap := target_amount - current_asset
  let monthly_save_capacity := monthly_income * 0.3
  if gap ≤ 0 then 0
  else
    let months_to_target :=
      if monthly_save_capacity > 0 then gap / monthly_save_capacity else 999
    if months_to_target ≤ 0 then 1
    else if months_to_target < 12 then 1
    else if months_to_target < 60 then min 1 (60 / months_to_target)
    else min 1 (100 / months_to_target)

/-- The time-pressure formula exactly as worded by claim C6 (spec §4.2). -/
def time_pressure_claim (current_asset monthly_income target_amount : ℚ) : ℚ :=
  let gap := target_amount - current_asset
  if gap ≤ 0 then 0
  else
    let capacity := monthly_income * 0.3
    let months_to_target := if capacity ≤ 0 then 999 else gap / capacity
    if months_to_target < 12 then 1
    else if months_to_target < 60 then min 1 (60 / months_to_target)
    else min 1 (100 / months_to_target)

lemma time_pressure_eq_claim (ca mi ta : ℚ) :
    time_pressure ca mi ta = time_pressure_claim ca mi ta := by
  unfold time_pressure time_pressure_claim
  by_cases hg : ta - ca ≤ 0
  · simp [hg]
  · simp only [hg, if_false]
    by_cases hc : mi * 0.3 > 0
    · have hc2 : ¬(mi * 0.3 ≤ 0) := not_le.mpr hc
      simp only [hc, if_true, hc2, if_false]
      by_cases hm : (ta - ca) / (mi * 0.3) ≤ 0
      · have h12 : (ta - ca) / (mi * 0.3) < 12 := by linarith
        simp [hm, h12]
      · simp [hm]
    · have hc2 : mi * 0.3 ≤ 0 := not_lt.mp hc
      simp only [hc, if_false, hc2, if_true]
      norm_num

/-- C6: for every `currentAsset ≥ 0`, `monthlyIncome ≥ 0` and every goal, the
`time_pressure` factor computed by `calculate_risk_tolerance` equals the
claim's piecewise formula (0 when the gap is closed; sentinel 999 when the
saving capacity is not positive; 1.0 below 12 months; `min(1, 60/m)` for
12 ≤ m < 60; `min(1, 100/m)` for m ≥ 60). -/
theorem time_pressure_matches_claim (current_asset monthly_income : ℚ)
    (goal : String) (hca : 0 ≤ current_asset) (hmi : 0 ≤ monthly_income) :
    time_pressure current_asset monthly_income (calculate_target_amount goal)
      = time_pressure_claim current_asset monthly_income
          (calculate_target_amount goal) :=
  time_pressure_eq_claim current_asset monthly_income
    (calculate_target_amount goal)

/-- C6 witness at the spec's own scenario (goal "买房", assets 50000, income
15000). -/
theorem time_pressure_matches_claim_witness :
    0 ≤ (50000 : ℚ) ∧ 0 ≤ (15000 : ℚ) ∧
    time_pressure 50000 15000 (calculate_target_amount "买房")
      = time_pressure_claim 50000 15000 (calculate_target_amount "买房") :=
  ⟨by norm_num, by norm_num,
    time_pressure_matches_claim 50000 15000 "买房" (by norm_num) (by norm_num)⟩

lemma round2_mono {x y : ℚ} (h : x ≤ y) : round2 x ≤ round2 y := by
  unfold round2
  have h2 : round (x * 100) ≤ round (y * 100) := round_le_round (by linarith)
  have h3 : ((round (x * 100) : ℤ) : ℚ) ≤ ((round (y * 100) : ℤ) : ℚ) :=
    Int.cast_le.mpr h2
  linarith

/-- A `SavingsPlan` as returned by `calculate_optimal_savings_rate`. -/
structure SavingsPlan where
  monthly_save : ℚ
  savings_rate : ℚ
  target_months : ℕ
  expected_final_amount : ℚ

/-- The `while accumulated < target_amount and months < 600` loop of
`calculate_optimal_savings_rate` (lines 386-391), embedded with an explicit
fuel argument.  Fuel 600 reproduces the Python loop exactly: the month
counter rises by one whenever the fuel drops by one, so with fuel 600 and
`months = 0` the fuel can only run out once `months = 600`, where the Python
guard `months < 600` stops as well. -/
def loopAux (target r save : ℚ) : ℕ → ℚ → ℕ → ℕ
  | 0, _, months => months
  | fuel + 1, accumulated, months =>
    if accumulated < target ∧ months < 600 then
      loopAux target r save fuel (accumulated * (1 + r) + save) (months + 1)
    else months

lemma loopAux_le (t r s : ℚ) :
    ∀ (fuel : ℕ) (acc : ℚ) (m : ℕ), loopAux t r s fuel acc m ≤ fuel + m := by
  intro fuel
  induction fuel with
  | zero => intro acc m; simp [loopAux]
  | succ f ih =>
    intro acc m
    unfold loopAux
    split
    · exact le_trans (ih _ (m + 1)) (by omega)
    · omega

lemma loopAux_stable (t r s : ℚ) :
    ∀ (fuel : ℕ) (acc : ℚ) (m : ℕ), 600 ≤ fuel + m →
      loopAux t r s fuel acc m = loopAux t r s (fuel + 1) acc m := by
  intro fuel
  induction fuel with
  | zero =>
    intro acc m h
    have hm : ¬(m < 600) := by omega
    simp [loopAux, hm]
  | succ f ih =>
    intro acc m h
    by_cases hcond : acc < t ∧ m < 600
    · show loopAux t r s (f + 1) acc m = loopAux t r s (f + 1 + 1) acc m
      rw [loopAux, loopAux, if_pos hcond, if_pos hcond]
      exact ih _ (m + 1) (by omega)
    · show loopAux t r s (f + 1) acc m = loopAux t r s (f + 1 + 1) acc m
      rw [loopAux, loopAux, if_neg hcond, if_neg hcond]

/-- Termination of the Python `while` loop: any fuel of at least 600 computes
the same month count as fuel exactly 600, i.e. the loop never needs more
than 600 iterations. -/
lemma loopAux_fuel_ge_600 (t r s acc : ℚ) :
    ∀ fuel, 600 ≤ fuel → loopAux t r s fuel acc 0 = loopAux t r s 600 acc 0 := by
  intro fuel
  induction fuel with
  | zero => intro h; omega
  | succ g ih =>
    intro h
    by_cases h6 : 600 ≤ g
    · rw [← loopAux_stable t r s g acc 0 (by omega)]
      exact ih h6
    · have hg : g + 1 = 600 := by omega
      rw [hg]

/-- The first stage of `calculate_optimal_savings_rate` (lines 372-405):
computes the pair (`target_months`, `monthly_save` before the savings-rate
clamp).  `r` is the monthly return `expected_return / 12`. -/
def savings_first_stage (current_asset monthly_income target_amount r : ℚ) :
    Option ℕ → ℕ × ℚ
  | none =>
    if target_amount - current_asset ≤ 0 then (0, 0)
    else
      let monthly_save := monthly_income * 0.3
      let months := loopAux target_amount r monthly_save 600 current_asset 0
      (if months < 600 then months else 600, monthly_save)
  | some n =>
    if n = 0 then (n, 0)
    else
      let future_value_pv := current_asset * (1 + r) ^ n
      let annuity_factor := if r > 0 then ((1 + r) ^ n - 1) / r else (n : ℚ)
      let monthly_save :=
        if annuity_factor > 0 then (target_amount - future_value_pv) / annuity_factor
        else (target_amount - current_asset) / (n : ℚ)
      (n, max 0 monthly_save)

/-- The savings-rate clamp of `calculate_optimal_savings_rate`
(lines 407-413): 0 when `target_months = 0` or `monthly_income = 0`, else
`min(0.6, max(0.2, monthly_save / monthly_income))`. -/
def savings_rate_of (target_months : ℕ) (monthly_income monthly_save : ℚ) : ℚ :=
  if target_months = 0 ∨ monthly_income = 0 then 0
  else min 0.6 (max 0.2 (monthly_save / monthly_income))

/-- `FinancialDecisionModel.calculate_optimal_savings_rate` (lines 340-434).
After the clamp, `monthly_save` is recomputed as `monthly_income * rate`
(in the zero branch the code sets it to 0, which equals
`monthly_income * 0`). -/
def calculate_optimal_savings_rate (current_asset monthly_income target_amount : ℚ)
    (rl : RiskLevel) (target_months_in : Option ℕ) : SavingsPlan :=
  let r := expected_return rl / 12
  let p := savings_first_stage current_asset monthly_income target_amount r
    target_months_in
  let sr := savings_rate_of p.1 monthly_income p.2
  let ms := monthly_income * sr
  let annuity_factor := if r > 0 then ((1 + r) ^ p.1 - 1) / r else (p.1 : ℚ)
  let efa :=
    if p.1 = 0 then current_asset
    else current_asset * (1 + r) ^ p.1 + ms * annuity_factor
  { monthly_save := round2 ms
    savings_rate := round2 sr
    target_months := p.1
    expected_final_amount := round2 efa }

/-- C5 counterexample: with `currentAsset = 0`, `monthlyIncome = 0`,
`targetAmount = 100000` and a requested horizon of 12 months, the returned
`savingsRate` is 0 while `targetMonths = 12 ≠ 0`: a zero income forces a
zero rate even with a positive horizon. -/
theorem savings_rate_zero_income_counterexample :
    (calculate_optimal_savings_rate 0 0 100000 .low (some 12)).savings_rate = 0 ∧
    (calculate_optimal_savings_rate 0 0 100000 .low (some 12)).target_months = 12 ∧
    (12 : ℕ) ≠ 0 := by
  have htm : (calculate_optimal_savings_rate 0 0 100000 .low (some 12)).target_months
      = 12 := rfl
  refine ⟨?_, htm, by norm_num⟩
  have hsr : (calculate_optimal_savings_rate 0 0 100000 .low (some 12)).savings_rate
      = round2 (savings_rate_of 12 0
          (savings_first_stage 0 0 100000 (expected_return .low / 12) (some 12)).2) :=
    rfl
  rw [hsr]
  have h0 : savings_rate_of 12 0
      (savings_first_stage 0 0 100000 (expected_return .low / 12) (some 12)).2 = 0 := by
    unfold savings_rate_of
    simp
  rw [h0]
  norm_num [round2]

/-- C5 (amended): for every `currentAsset ≥ 0`, `monthlyIncome ≥ 0`,
`targetAmount`, risk tier and optional horizon, the returned `savingsRate`
lies in [0, 0.6], and it is 0 only if the returned `targetMonths` is 0 or
`monthlyIncome` is 0 (the claim omitted the zero-income case). -/
theorem savings_rate_bounds (current_asset monthly_income target_amount : ℚ)
    (rl : RiskLevel) (target_months_in : Option ℕ)
    (hca : 0 ≤ current_asset) (hmi : 0 ≤ monthly_income) :
    0 ≤ (calculate_optimal_savings_rate current_asset monthly_income
          target_amount rl target_months_in).savings_rate ∧
    (calculate_optimal_savings_rate current_asset monthly_income
          target_amount rl target_months_in).savings_rate ≤ 0.6 ∧
    ((calculate_optimal_savings_rate current_asset monthly_income
          target_amount rl target_months_in).savings_rate = 0 →
      (calculate_optimal_savings_rate current_asset monthly_income
          target_amount rl target_months_in).target_months = 0 ∨
        monthly_income = 0) := by
  have hsr : (calculate_optimal_savings_rate current_asset monthly_income
        target_amount rl target_months_in).savings_rate
      = round2 (savings_rate_of
          (savings_first_stage current_asset monthly_income target_amount
            (expected_return rl / 12) target_months_in).1
          monthly_income
          (savings_first_stage current_asset monthly_income target_amount
            (expected_return rl / 12) target_months_in).2) := rfl
  have htm : (calculate_optimal_savings_rate current_asset monthly_income
        target_amount rl target_months_in).target_months
      = (savings_first_stage current_asset monthly_income target_amount
          (expected_return rl / 12) target_months_in).1 := rfl
  rw [hsr, htm]
  set tm := (savings_first_stage current_asset monthly_income target_amount
    (expected_return rl / 12) target_months_in).1
  set ms0 := (savings_first_stage current_asset monthly_income target_amount
    (expected_return rl / 12) target_months_in).2
  by_cases h : tm = 0 ∨ monthly_income = 0
  · have h0 : savings_rate_of tm monthly_income ms0 = 0 := by
      unfold savings_rate_of
      rw [if_pos h]
    rw [h0, show round2 0 = 0 from by norm_num [round2]]
    exact ⟨le_refl 0, by norm_num, fun _ => h⟩
  · have hval : savings_rate_of tm monthly_income ms0
        = min 0.6 (max 0.2 (ms0 / monthly_income)) := by
      unfold savings_rate_of
      rw [if_neg h]
    have h02 : (0.2 : ℚ) ≤ min 0.6 (max 0.2 (ms0 / monthly_income)) :=
      le_min (by norm_num) (le_max_left _ _)
    have h06 : min (0.6 : ℚ) (max 0.2 (ms0 / monthly_income)) ≤ 0.6 :=
      min_le_left _ _
    have hlo : (0.2 : ℚ) ≤ round2 (savings_rate_of tm monthly_income ms0) := by
      rw [hval]
      calc (0.2 : ℚ) = round2 0.2 := by norm_num [round2, round_eq]
        _ ≤ _ := round2_mono h02
    have hhi : round2 (savings_rate_of tm monthly_income ms0) ≤ 0.6 := by
      rw [hval]
      calc round2 (min 0.6 (max 0.2 (ms0 / monthly_income)))
          ≤ round2 0.6 := round2_mono h06
        _ = 0.6 := by norm_num [round2, round_eq]
    refine ⟨by linarith, hhi, fun hzero => ?_⟩
    rw [hzero] at hlo
    norm_num at hlo

/-- C5 witness at a concrete input. -/
theorem savings_rate_bounds_witness :
    0 ≤ (50000 : ℚ) ∧ 0 ≤ (15000 : ℚ) ∧
    (0 ≤ (calculate_optimal_savings_rate 50000 15000 1000000 .low none).savings_rate ∧
    (calculate_optimal_savings_rate 50000 15000 1000000 .low none).savings_rate ≤ 0.6 ∧
    ((calculate_optimal_savings_rate 50000 15000 1000000 .low none).savings_rate = 0 →
      (calculate_optimal_savings_rate 50000 15000 1000000 .low none).target_months = 0 ∨
        (15000 : ℚ) = 0)) :=
  ⟨by norm_num, by norm_num,
    savings_rate_bounds 50000 15000 1000000 .low none (by norm_num) (by norm_num)⟩

/-- C8: when the horizon is unspecified and the gap is positive, the
month-by-month compounding search always terminates — fuel 600 suffices, and
any larger fuel computes the same month count — and the returned
`targetMonths` is at most 600 (it is a natural number, hence at least 0). -/
theorem target_months_bounded (current_asset monthly_income target_amount : ℚ)
    (rl : RiskLevel) (hgap : 0 < target_amount - current_asset) :
    (calculate_optimal_savings_rate current_asset monthly_income target_amount
        rl none).target_months ≤ 600 ∧
    ∀ fuel, 600 ≤ fuel →
      loopAux target_amount (expected_return rl / 12) (monthly_income * 0.3)
          fuel current_asset 0
        = loopAux target_amount (expected_return rl / 12) (monthly_income * 0.3)
            600 current_asset 0 := by
  constructor
  · have htm : (calculate_optimal_savings_rate current_asset monthly_income
          target_amount rl none).target_months
        = (savings_first_stage current_asset monthly_income target_amount
            (expected_return rl / 12) none).1 := rfl
    rw [htm]
    simp only [savings_first_stage]
    rw [if_neg (not_le.mpr hgap)]
    dsimp only
    split
    · omega
    · omega
  · exact fun fuel hf =>
      loopAux_fuel_ge_600 target_amount (expected_return rl / 12)
        (monthly_income * 0.3) current_asset fuel hf

/-- C8 witness at a concrete input. -/
theorem target_months_bounded_witness :
    0 < (1 : ℚ) - 0 ∧
    ((calculate_optimal_savings_rate 0 0 1 .low none).target_months ≤ 600 ∧
    ∀ fuel, 600 ≤ fuel →
      loopAux 1 (expected_return .low / 12) ((0 : ℚ) * 0.3) fuel 0 0
        = loopAux 1 (expected_return .low / 12) ((0 : ℚ) * 0.3) 600 0 0) :=
  ⟨by norm_num, target_months_bounded 0 0 1 .low (by norm_num)⟩

/-- Ascending insertion used to model Python's `list.sort()`. -/
def insertSorted (x : ℚ) : List ℚ → List ℚ
  | [] => [x]
  | y :: ys => if x ≤ y then x :: y :: ys else y :: insertSorted x ys

/-- Ascending sort modelling `final_values.sort()` (line 561). -/
def sortAsc : List ℚ → List ℚ
  | [] => []
  | x :: xs => insertSorted x (sortAsc xs)

/-- A `SimulationResult` as returned by `monte_carlo_simulation`. -/
structure MCResult where
  expected_value : ℚ
  median : ℚ
  p5 : ℚ
  p95 : ℚ
  confidence_interval : ℚ × ℚ

/-- One simulated trial of `monte_carlo_simulation` (lines 553-558): month by
month, `asset = asset * (1 + random_return) + monthly_save`, where the random
monthly return of month `m` is `stream m`. -/
def runTrial (stream : ℕ → ℚ) (current_asset monthly_save : ℚ) : ℕ → ℚ
  | 0 => current_asset
  | m + 1 => runTrial stream current_asset monthly_save m * (1 + stream m)
      + monthly_save

/-- `FinancialDecisionModel.monte_carlo_simulation` (lines 519-575).  The
Gaussian draws are abstracted by `streams` (trial index ↦ month ↦ random
monthly return), so every theorem below quantifies over all possible
randomness; `expected_return` and `vol` only parameterize the distribution
and do not otherwise enter the computation.  The percentile indices model
Python's `simulations // 2`, `int(simulations * 0.05)` and
`int(simulations * 0.95)`.  Python would raise a `ZeroDivisionError` on
`simulations = 0`; the claims only concern `simulations ≥ 1`. -/
def monte_carlo_simulation (streams : ℕ → ℕ → ℚ)
    (current_asset monthly_save er vol : ℚ) (months simulations : ℕ) : MCResult :=
  let final_values := sortAsc
    ((List.range simulations).map
      (fun i => runTrial (streams i) current_asset monthly_save months))
  let median := final_values.getD (simulations / 2) 0
  let p5 := final_values.getD (simulations * 5 / 100) 0
  let p95 := final_values.getD (simulations * 95 / 100) 0
  let mean := final_values.sum / (simulations : ℚ)
  { expected_value := round2 mean
    median := round2 median
    p5 := round2 p5
    p95 := round2 p95
    confidence_interval := (round2 p5, round2 p95) }

lemma map_const_of_eq (l : List ℕ) (f : ℕ → ℚ) (c : ℚ) (h : ∀ i, f i = c) :
    l.map f = List.replicate l.length c := by
  induction l with
  | nil => rfl
  | cons x xs ih => simp [h, ih, List.replicate_succ]

lemma sortAsc_replicate (n : ℕ) (c : ℚ) :
    sortAsc (List.replicate n c) = List.replicate n c := by
  induction n with
  | zero => rfl
  | succ k ih =>
    rw [List.replicate_succ]
    show insertSorted c (sortAsc (List.replicate k c)) = _
    rw [ih]
    cases k with
    | zero => rfl
    | succ j =>
      rw [List.replicate_succ]
      show (if c ≤ c then c :: c :: List.replicate j c
        else c :: insertSorted c (List.replicate j c)) = _
      rw [if_pos (le_refl c)]

lemma getD_replicate (n i : ℕ) (c d : ℚ) (h : i < n) :
    (List.replicate n c).getD i d = c := by
  rw [List.getD_eq_getElem _ _ (by simpa using h)]
  exact List.getElem_replicate ..

/-- C10: with `months = 0` and at least one simulation, every trial returns
`currentAsset` unchanged, so `monte_carlo_simulation` is deterministic
regardless of the random stream: expected value, median, 5th and 95th
percentile all equal `currentAsset` rounded to two decimals.  This is the
degenerate case `recommend_path` reaches whenever the goal is already met
(`targetMonths = 0`). -/
theorem monte_carlo_zero_months (streams : ℕ → ℕ → ℚ)
    (current_asset monthly_save er vol : ℚ) (simulations : ℕ)
    (h : 1 ≤ simulations) :
    monte_carlo_simulation streams current_asset monthly_save er vol 0 simulations
      = { expected_value := round2 current_asset
          median := round2 current_asset
          p5 := round2 current_asset
          p95 := round2 current_asset
          confidence_interval := (round2 current_asset, round2 current_asset) } := by
  have htrial : ∀ i, runTrial (streams i) current_asset monthly_save 0
      = current_asset := fun _ => rfl
  have hmap : (List.range simulations).map
      (fun i => runTrial (streams i) current_asset monthly_save 0)
      = List.replicate simulations current_asset := by
    rw [map_const_of_eq _ _ current_asset htrial, List.length_range]
  have hfinal : sortAsc ((List.range simulations).map
      (fun i => runTrial (streams i) current_asset monthly_save 0))
      = List.replicate simulations current_asset := by
    rw [hmap, sortAsc_replicate]
  unfold monte_carlo_simulation
  rw [hfinal]
  dsimp only
  have hmed : (List.replicate simulations current_asset).getD
      (simulations / 2) 0 = current_asset :=
    getD_replicate _ _ _ _ (by omega)
  have hp5 : (List.replicate simulations current_asset).getD
      (simulations * 5 / 100) 0 = current_asset :=
    getD_replicate _ _ _ _ (by omega)
  have hp95 : (List.replicate simulations current_asset).getD
      (simulations * 95 / 100) 0 = current_asset :=
    getD_replicate _ _ _ _ (by omega)
  have hsum : (List.replicate simulations current_asset).sum
      = (simulations : ℚ) * current_asset := by
    rw [List.sum_replicate]
    exact nsmul_eq_mul simulations current_asset
  have hmean : (List.replicate simulations current_asset).sum / (simulations : ℚ)
      = current_asset := by
    rw [hsum]
    exact mul_div_cancel_left₀ current_asset (by positivity)
  rw [hmed, hp5, hp95, hmean]

/-- C10 witness at a concrete input. -/
theorem monte_carlo_zero_months_witness :
    1 ≤ 1 ∧
    monte_carlo_simulation (fun _ _ => 0) 100 0 0.05 0.03 0 1
      = { expected_value := round2 100
          median := round2 100
          p5 := round2 100
          p95 := round2 100
          confidence_interval := (round2 100, round2 100) } :=
  ⟨by norm_num, monte_carlo_zero_months (fun _ _ => 0) 100 0 0.05 0.03 1 (by norm_num)⟩
